import Mathlib

/-!
# Verification of the admin dashboard session/proxy core

A shallow embedding of the token-handling core of the `presentation-admin`
repository: the cookie-backed token store (`src/lib/admin-session.ts`), the
backend request client (`src/lib/bot-api.ts`), the authenticated proxy
(`src/lib/admin-proxy.ts`), and the API route handlers that consume them
(`src/app/api/...`).

The external backend is modelled as an oracle mapping the history of calls
made so far, together with the current call, to an optional response
(`none` models a network-level failure, i.e. `fetch` rejecting).  Each
embedded entry point threads an explicit event log recording, in order,
the backend calls it issues and the cookie writes it performs, so that
call-counting and ordering properties can be stated directly.
-/

namespace PresentationAdmin

/-- A JSON value, as exchanged with the backend and the browser. -/
inductive Json where
  | null
  | bool (b : Bool)
  | num (n : Int)
  | str (s : String)
  | arr (xs : List Json)
  | obj (fields : List (String × Json))

/-- Field lookup on a JSON object (JS property access on a parsed object). -/
def jLookup : List (String × Json) → String → Option Json
  | [], _ => none
  | (k, v) :: rest, key => if k = key then some v else jLookup rest key

/-- JavaScript falsiness of a JSON value (`!payload`): `null`, `false`,
`0` and `""` are falsy; objects and arrays are always truthy. -/
def jsFalsy : Json → Bool
  | .null => true
  | .bool b => !b
  | .num n => n == 0
  | .str s => s == ""
  | .arr _ => false
  | .obj _ => false

/-- Whether `pat` occurs as a contiguous run inside the character list. -/
def hasInfixAux (pat : List Char) : List Char → Bool
  | [] => pat.isEmpty
  | c :: rest => pat.isPrefixOf (c :: rest) || hasInfixAux pat rest

/-- JS `String.prototype.includes`. -/
def strIncludes (s pat : String) : Bool := hasInfixAux pat.data s.data

/-- JS `String.prototype.startsWith`. -/
def strStartsWith (s pre : String) : Bool := pre.data.isPrefixOf s.data

/-- The regex replace `/\/+$/ → ""` used on the base URL. -/
def stripTrailingSlashes (s : String) : String :=
  ⟨(s.data.reverse.dropWhile (· = '/')).reverse⟩

/-- ASCII whitespace, for the `trim()` on the configured base URL. -/
def isJsSpace (c : Char) : Bool := c = ' ' || c = '\t' || c = '\n' || c = '\r'

/-- JS `String.prototype.trim` (restricted to ASCII whitespace). -/
def trimString (s : String) : String :=
  ⟨((s.data.dropWhile isJsSpace).reverse.dropWhile isJsSpace).reverse⟩

/-- The relevant part of `process.env`: `NODE_ENV === "production"` and
the optional `BOT_API_URL` value. -/
structure Env where
  production : Bool
  botApiUrl : Option String
deriving DecidableEq, Repr

/-- `DEFAULT_BOT_API_URL` from `src/lib/bot-api.ts`. -/
def DEFAULT_BOT_API_URL : String := "http://localhost:3000"

/-- `getBotApiBaseUrl` from `src/lib/bot-api.ts`: the configured URL when
set and nonempty after trimming, otherwise the default; trailing slashes
stripped. -/
def getBotApiBaseUrl (env : Env) : String :=
  let configured := trimString (env.botApiUrl.getD "")
  let baseUrl := if configured = "" then DEFAULT_BOT_API_URL else configured
  stripTrailingSlashes baseUrl

/-- `ACCESS_TOKEN_MAX_AGE_SECONDS` from `src/lib/admin-session.ts`. -/
def ACCESS_TOKEN_MAX_AGE_SECONDS : Nat := 15 * 60

/-- `REFRESH_TOKEN_MAX_AGE_SECONDS` from `src/lib/admin-session.ts`. -/
def REFRESH_TOKEN_MAX_AGE_SECONDS : Nat := 7 * 24 * 60 * 60

/-- `ACCESS_TOKEN_COOKIE_NAME` from `src/lib/admin-session.ts`. -/
def ACCESS_TOKEN_COOKIE_NAME : String := "admin_access_token"

/-- `REFRESH_TOKEN_COOKIE_NAME` from `src/lib/admin-session.ts`. -/
def REFRESH_TOKEN_COOKIE_NAME : String := "admin_refresh_token"

/-- `StoredAdminTokens` from `src/lib/admin-session.ts`. -/
structure StoredAdminTokens where
  accessToken : String
  refreshToken : String
deriving DecidableEq, Repr

/-- The result of `readStoredAdminTokens`: each cookie value, or `none`
when the cookie is absent (`cookieStore.get(...)?.value ?? null`). -/
structure StoredTokenCookies where
  accessToken : Option String
  refreshToken : Option String
deriving DecidableEq, Repr

/-- JS truthiness of a string (`""` is falsy). -/
def strTruthy (s : String) : Bool := if s = "" then false else true

/-- JS truthiness of a nullable string (`null` and `""` are falsy). -/
def truthy : Option String → Bool
  | none => false
  | some s => strTruthy s

/-- One `response.cookies.set(...)` invocation, with the options used by
`src/lib/admin-session.ts`. -/
structure CookieWrite where
  name : String
  value : String
  httpOnly : Bool
  sameSiteLax : Bool
  secure : Bool
  path : String
  maxAge : Option Nat
  expiresEpochMs : Option Nat
deriving DecidableEq, Repr

/-- The cookie-write pair performed by `setStoredAdminTokens`. -/
def setCookiePair (env : Env) (tokens : StoredAdminTokens) : List CookieWrite :=
  [{ name := ACCESS_TOKEN_COOKIE_NAME
     value := tokens.accessToken
     httpOnly := true
     sameSiteLax := true
     secure := env.production
     path := "/"
     maxAge := some ACCESS_TOKEN_MAX_AGE_SECONDS
     expiresEpochMs := none },
   { name := REFRESH_TOKEN_COOKIE_NAME
     value := tokens.refreshToken
     httpOnly := true
     sameSiteLax := true
     secure := env.production
     path := "/"
     maxAge := some REFRESH_TOKEN_MAX_AGE_SECONDS
     expiresEpochMs := none }]

/-- The cookie-write pair performed by `clearStoredAdminTokens`: empty
values with the already-expired timestamp `new Date(0)`. -/
def clearedCookiePair (env : Env) : List CookieWrite :=
  [{ name := ACCESS_TOKEN_COOKIE_NAME
     value := ""
     httpOnly := true
     sameSiteLax := true
     secure := env.production
     path := "/"
     maxAge := none
     expiresEpochMs := some 0 },
   { name := REFRESH_TOKEN_COOKIE_NAME
     value := ""
     httpOnly := true
     sameSiteLax := true
     secure := env.production
     path := "/"
     maxAge := none
     expiresEpochMs := some 0 }]

/-- A `NextResponse` produced by this system: JSON body, status, and the
cookie mutations attached to it. -/
structure ApiResponse where
  status : Nat
  payload : Json
  cookieWrites : List CookieWrite

/-- `setStoredAdminTokens` from `src/lib/admin-session.ts`: writes both
token cookies on the response. -/
def setStoredAdminTokens (env : Env) (response : ApiResponse)
    (tokens : StoredAdminTokens) : ApiResponse :=
  { response with cookieWrites := response.cookieWrites ++ setCookiePair env tokens }

/-- `clearStoredAdminTokens` from `src/lib/admin-session.ts`: overwrites
both token cookies with empty, already-expired values. -/
def clearStoredAdminTokens (env : Env) (response : ApiResponse) : ApiResponse :=
  { response with cookieWrites := response.cookieWrites ++ clearedCookiePair env }

/-- `hasStoredAdminSession` from `src/lib/admin-session.ts`. -/
def hasStoredAdminSession (stored : StoredTokenCookies) : Bool :=
  truthy stored.accessToken || truthy stored.refreshToken

/-- A backend `Response` as observed by this system: status, the
`content-type` header, the body text, and what `response.json()` resolves
to (`none` when the body is not valid JSON, in which case `json()`
throws). -/
structure BotResponse where
  status : Nat
  contentType : Option String
  bodyText : String
  jsonResult : Option Json

/-- `Response.ok`: status in the range 200–299. -/
def respOk (r : BotResponse) : Bool := 200 ≤ r.status && r.status ≤ 299

/-- One outbound backend request as issued by `botApiRequest`: the full
URL, the method, and the `authorization` / `content-type` headers and the
JSON body it carries. -/
structure BackendCall where
  url : String
  method : String
  authorization : Option String
  contentType : Option String
  body : Option Json

/-- An exception escaping an embedded operation: a network-level `fetch`
failure or a JSON parse failure in `response.json()`. -/
inductive JsError where
  | transport
  | jsonParse
deriving DecidableEq, Repr

/-- The external backend, modelled as an oracle from the history of calls
made so far and the current call to an optional response (`none` = the
fetch rejects with a transport error). -/
def Backend := List BackendCall → BackendCall → Option BotResponse

/-- The subset of `RequestInit` used at the proxy's call sites: method,
JSON body, and the `authorization` header.  No call site in this codebase
presets a `content-type` header. -/
structure RequestInit where
  method : String
  body : Option Json
  authorization : Option String

/-- The empty `RequestInit` (`{}`): `fetch` defaults to `GET`. -/
def defaultInit : RequestInit := ⟨"GET", none, none⟩

/-- `withBearerToken` from `src/lib/admin-proxy.ts`. -/
def withBearerToken (init : RequestInit) (accessToken : String) : RequestInit :=
  { init with authorization := some ("Bearer " ++ accessToken) }

/-- `readErrorMessage` from `src/lib/bot-api.ts`. -/
def readErrorMessage (status : Nat) : String :=
  "Bot API request failed with status " ++ toString status

/-- The request constructed by `botApiRequest`: base URL concatenated with
the path (leading slash ensured), and `content-type: application/json`
defaulted when a body is present. -/
def mkBackendCall (env : Env) (path : String) (init : RequestInit) : BackendCall :=
  { url := getBotApiBaseUrl env ++ (if strStartsWith path "/" = true then path else "/" ++ path)
    method := init.method
    authorization := init.authorization
    contentType := if init.body.isSome then some "application/json" else none
    body := init.body }

/-- An entry of the event log: a backend call being issued, or a cookie
write being performed on the outbound response. -/
inductive ProxyEvent where
  | call (c : BackendCall)
  | cookieWrite (w : CookieWrite)

/-- The backend calls recorded in an event log, in order. -/
def callsOf (events : List ProxyEvent) : List BackendCall :=
  events.filterMap fun e =>
    match e with
    | .call c => some c
    | .cookieWrite _ => none

/-- `botApiRequest` from `src/lib/bot-api.ts`, instrumented with the event
log: issues the call against the oracle and records it. -/
def botApiRequest (env : Env) (backend : Backend) (events : List ProxyEvent)
    (path : String) (init : RequestInit) :
    Except JsError BotResponse × List ProxyEvent :=
  let call := mkBackendCall env path init
  match backend (callsOf events) call with
  | none => (.error .transport, events ++ [.call call])
  | some response => (.ok response, events ++ [.call call])

/-- `readBotApiPayload` from `src/lib/bot-api.ts`: parse the body when the
content-type indicates JSON (a parse failure in `response.json()`
propagates as an exception), otherwise wrap the body text as
`{message: text}` with the fixed fallback for an empty text. -/
def readBotApiPayload (r : BotResponse) : Except JsError Json :=
  let contentType := r.contentType.getD ""
  if strIncludes contentType "application/json" = true then
    match r.jsonResult with
    | some v => .ok v
    | none => .error .jsonParse
  else
    .ok (.obj [("message",
      .str (if r.bodyText = "" then readErrorMessage r.status else r.bodyText))])

/-- `parseTokens` from `src/lib/admin-proxy.ts`: `null` unless the payload
is a truthy object whose `accessToken` and `refreshToken` fields are both
truthy.  The fields are read at their declared type
(`accessToken?: string`): the model adopts a pair exactly for truthy
string-valued fields, where it coincides with the source's runtime
truthiness check; a payload whose token field is a truthy non-string is
adopted by the source's untyped runtime check, so the theorems below draw
on the `none` branch only within `malformedTokenPayload`, where model and
source provably agree. -/
def parseTokens (payload : Json) : Option StoredAdminTokens :=
  if jsFalsy payload = true then none
  else
    match payload with
    | .obj fields =>
      match jLookup fields "accessToken", jLookup fields "refreshToken" with
      | some (.str a), some (.str r) =>
        if a = "" then none
        else if r = "" then none
        else some ⟨a, r⟩
      | _, _ => none
    | _ => none

/-- The refresh request issued by `refreshSessionTokens`. -/
def refreshInit (refreshToken : String) : RequestInit :=
  ⟨"POST", some (.obj [("refreshToken", .str refreshToken)]), none⟩

/-- `refreshSessionTokens` from `src/lib/admin-proxy.ts`: POST the refresh
token to `/admin/auth/refresh`; `none` on a non-2xx response or an
unparseable token payload, the new pair otherwise. -/
def refreshSessionTokens (env : Env) (backend : Backend)
    (events : List ProxyEvent) (refreshToken : String) :
    Except JsError (Option StoredAdminTokens) × List ProxyEvent :=
  match botApiRequest env backend events "/admin/auth/refresh" (refreshInit refreshToken) with
  | (.error e, events) => (.error e, events)
  | (.ok response, events) =>
    if respOk response = true then
      match readBotApiPayload response with
      | .error e => (.error e, events)
      | .ok payload => (.ok (parseTokens payload), events)
    else (.ok none, events)

/-- `unauthorizedResponse` from `src/lib/admin-proxy.ts`: a 401 JSON
response with both token cookies cleared. -/
def unauthorizedResponse (env : Env) : ApiResponse :=
  clearStoredAdminTokens env ⟨401, .obj [("message", .str "Unauthorized.")], []⟩

/-- The outcome of one embedded entry point: the response it produced (or
the exception that escaped), together with the ordered event log. -/
structure ProxyResult where
  result : Except JsError ApiResponse
  events : List ProxyEvent

/-- An early `return unauthorizedResponse()`, recording its cookie writes. -/
def respondUnauthorized (env : Env) (events : List ProxyEvent) : ProxyResult :=
  ⟨.ok (unauthorizedResponse env),
   events ++ (clearedCookiePair env).map ProxyEvent.cookieWrite⟩

/-- Lines 115–127 of `src/lib/admin-proxy.ts`: read the final backend
response payload, relay its status; on a final 401 clear the cookies,
otherwise persist any rotated pair. -/
def finishProxy (env : Env) (backendResponse : BotResponse)
    (refreshedTokens : Option StoredAdminTokens) (events : List ProxyEvent) :
    ProxyResult :=
  match readBotApiPayload backendResponse with
  | .error e => ⟨.error e, events⟩
  | .ok payload =>
    let response : ApiResponse := ⟨backendResponse.status, payload, []⟩
    if backendResponse.status = 401 then
      ⟨.ok (clearStoredAdminTokens env response),
       events ++ (clearedCookiePair env).map ProxyEvent.cookieWrite⟩
    else
      match refreshedTokens with
      | some t =>
        ⟨.ok (setStoredAdminTokens env response t),
         events ++ (setCookiePair env t).map ProxyEvent.cookieWrite⟩
      | none => ⟨.ok response, events⟩

/-- Lines 96–127 of `src/lib/admin-proxy.ts`: issue the request with the
active access token; on a 401 with a refresh token available, refresh once
and retry once, the second response being final. -/
def proxyCore (env : Env) (backend : Backend) (path : String)
    (init : RequestInit) (activeTokens : StoredAdminTokens)
    (refreshedTokens : Option StoredAdminTokens) (events : List ProxyEvent) :
    ProxyResult :=
  match botApiRequest env backend events path (withBearerToken init activeTokens.accessToken) with
  | (.error e, events) => ⟨.error e, events⟩
  | (.ok backendResponse, events) =>
    if backendResponse.status = 401 ∧ strTruthy activeTokens.refreshToken = true then
      match refreshSessionTokens env backend events activeTokens.refreshToken with
      | (.error e, events) => ⟨.error e, events⟩
      | (.ok none, events) => respondUnauthorized env events
      | (.ok (some retriedTokens), events) =>
        match botApiRequest env backend events path (withBearerToken init retriedTokens.accessToken) with
        | (.error e, events) => ⟨.error e, events⟩
        | (.ok retriedResponse, events) =>
          finishProxy env retriedResponse (some retriedTokens) events
    else
      finishProxy env backendResponse refreshedTokens events

/-- `proxyAuthedAdminRequest` from `src/lib/admin-proxy.ts`: the
authenticated passthrough.  Immediate 401 when neither cookie is truthy;
both cookies truthy makes them the active pair; otherwise, with only a
refresh token, a proactive refresh is attempted; a remaining absent active
pair yields 401. -/
def proxyAuthedAdminRequest (env : Env) (backend : Backend)
    (stored : StoredTokenCookies) (path : String) (init : RequestInit) :
    ProxyResult :=
  if truthy stored.accessToken = false ∧ truthy stored.refreshToken = false then
    respondUnauthorized env []
  else
    let activeTokens : Option StoredAdminTokens :=
      if truthy stored.accessToken = true ∧ truthy stored.refreshToken = true then
        some ⟨stored.accessToken.getD "", stored.refreshToken.getD ""⟩
      else none
    if activeTokens = none ∧ truthy stored.refreshToken = true then
      match refreshSessionTokens env backend [] (stored.refreshToken.getD "") with
      | (.error e, events) => ⟨.error e, events⟩
      | (.ok none, events) => respondUnauthorized env events
      | (.ok (some refreshed), events) =>
        proxyCore env backend path init refreshed (some refreshed) events
    else
      match activeTokens with
      | none => respondUnauthorized env []
      | some active => proxyCore env backend path init active none []

/-- The shared body of the route handlers that call the backend directly
(no session check): issue the request, read the payload, relay the status. -/
def directRelayRoute (env : Env) (backend : Backend) (path : String)
    (init : RequestInit) : ProxyResult :=
  match botApiRequest env backend [] path init with
  | (.error e, events) => ⟨.error e, events⟩
  | (.ok response, events) =>
    match readBotApiPayload response with
    | .error e => ⟨.error e, events⟩
    | .ok payload => ⟨.ok ⟨response.status, payload, []⟩, events⟩

/-- The fixed 400 response for an unparseable request body. -/
def invalidJsonBodyResponse : ApiResponse :=
  ⟨400, .obj [("message", .str "Request body must be valid JSON.")], []⟩

/-- `GET` of `src/app/api/admin/overview/route.ts`: direct relay, no
session check. -/
def overviewGET (env : Env) (backend : Backend) : ProxyResult :=
  directRelayRoute env backend "/admin/overview" defaultInit

/-- `GET` of `src/app/api/admin/users/route.ts`: direct relay of
`/admin/users` with the inbound query string, no session check. -/
def usersGET (env : Env) (backend : Backend) (queryString : String) : ProxyResult :=
  directRelayRoute env backend
    (if queryString = "" then "/admin/users" else "/admin/users?" ++ queryString)
    defaultInit

/-- `POST` of `src/app/api/admin/broadcast/route.ts`: 400 on an
unparseable body (`body = none`), otherwise direct relay, no session
check. -/
def broadcastPOST (env : Env) (backend : Backend) (body : Option Json) : ProxyResult :=
  match body with
  | none => ⟨.ok invalidJsonBodyResponse, []⟩
  | some b => directRelayRoute env backend "/admin/broadcast" ⟨"POST", some b, none⟩

/-- `POST` of `src/app/api/admin/presentations/[id]/fail/route.ts`: direct
relay, no session check. -/
def presentationFailPOST (env : Env) (backend : Backend) (id : String) : ProxyResult :=
  directRelayRoute env backend ("/admin/presentations/" ++ id ++ "/fail")
    ⟨"POST", none, none⟩

/-- `GET` of `src/app/api/admin/admins/route.ts`: delegates to the
authenticated proxy. -/
def adminsGET (env : Env) (backend : Backend) (stored : StoredTokenCookies) : ProxyResult :=
  proxyAuthedAdminRequest env backend stored "/admin/admins" defaultInit

/-- `POST` of `src/app/api/admin/admins/route.ts`: 400 on an unparseable
body, otherwise delegates to the authenticated proxy. -/
def adminsPOST (env : Env) (backend : Backend) (stored : StoredTokenCookies)
    (body : Option Json) : ProxyResult :=
  match body with
  | none => ⟨.ok invalidJsonBodyResponse, []⟩
  | some b =>
    proxyAuthedAdminRequest env backend stored "/admin/admins" ⟨"POST", some b, none⟩

/-- The proxied presentations-list handler present in the repository's
alternate revision (`src/unnamed/part_002`). -/
def presentationsGETProxied (env : Env) (backend : Backend)
    (stored : StoredTokenCookies) (queryString : String) : ProxyResult :=
  proxyAuthedAdminRequest env backend stored
    (if queryString = "" then "/admin/presentations"
     else "/admin/presentations?" ++ queryString)
    defaultInit

/-- The proxied presentation-fail handler present in the repository's
alternate revision (`src/unnamed/part_003`). -/
def presentationFailPOSTProxied (env : Env) (backend : Backend)
    (stored : StoredTokenCookies) (id : String) : ProxyResult :=
  proxyAuthedAdminRequest env backend stored
    ("/admin/presentations/" ++ id ++ "/fail") ⟨"POST", none, none⟩

/-- The proxied `/api/auth/me` handler present in the repository's
alternate revision (`src/unnamed/part_000`). -/
def authMeGET (env : Env) (backend : Backend) (stored : StoredTokenCookies) : ProxyResult :=
  proxyAuthedAdminRequest env backend stored "/admin/auth/me" defaultInit

/-- `POST` of `src/app/api/auth/logout/route.ts`: when an access token is
stored, best-effort notify the backend (transport failures swallowed by
the surrounding try/catch); always answer 200 `{success: true}` with both
cookies cleared. -/
def logoutPOST (env : Env) (backend : Backend) (stored : StoredTokenCookies) : ProxyResult :=
  let events : List ProxyEvent :=
    if truthy stored.accessToken = true then
      (botApiRequest env backend [] "/admin/auth/logout"
        ⟨"POST", none, some ("Bearer " ++ stored.accessToken.getD "")⟩).2
    else []
  ⟨.ok (clearStoredAdminTokens env ⟨200, .obj [("success", .bool true)], []⟩),
   events ++ (clearedCookiePair env).map ProxyEvent.cookieWrite⟩

/-- The status of the produced response, when one was produced. -/
def resultStatus (pr : ProxyResult) : Option Nat :=
  match pr.result with
  | .ok r => some r.status
  | .error _ => none

/-- The payload of the produced response, when one was produced. -/
def resultPayload (pr : ProxyResult) : Option Json :=
  match pr.result with
  | .ok r => some r.payload
  | .error _ => none

/-- The cookie writes of the produced response, when one was produced. -/
def resultCookieWrites (pr : ProxyResult) : Option (List CookieWrite) :=
  match pr.result with
  | .ok r => some r.cookieWrites
  | .error _ => none

/-- The target-endpoint request issued by the proxy: the inbound init with
the given access token attached as a bearer `authorization` header. -/
def targetCall (env : Env) (path : String) (init : RequestInit)
    (accessToken : String) : BackendCall :=
  mkBackendCall env path (withBearerToken init accessToken)

/-- The refresh request issued by `refreshSessionTokens`. -/
def refreshCall (env : Env) (refreshToken : String) : BackendCall :=
  mkBackendCall env "/admin/auth/refresh" (refreshInit refreshToken)

/-- Whether a call targets the backend refresh endpoint. -/
def isRefreshCall (env : Env) (c : BackendCall) : Bool :=
  c.url == getBotApiBaseUrl env ++ "/admin/auth/refresh"

/-- Whether an event is a non-clearing cookie write (a `set` with a
max-age, i.e. a token pair being persisted). -/
def isSetCookieWriteEvent : ProxyEvent → Bool
  | .cookieWrite w => w.maxAge.isSome
  | .call _ => false

/-- Whether a persisting cookie write occurs strictly before the `n`-th
backend call of the event log. -/
def setWriteBeforeCallNumber : Nat → List ProxyEvent → Bool
  | _, [] => false
  | n, e :: rest =>
    match e with
    | .call _ => if n ≤ 1 then false else setWriteBeforeCallNumber (n - 1) rest
    | .cookieWrite w => w.maxAge.isSome || setWriteBeforeCallNumber n rest

/-- A development environment: not production, no configured base URL. -/
def envDev : Env := ⟨false, none⟩

/-- A 200 response carrying an empty JSON object. -/
def okEmptyResp : BotResponse := ⟨200, some "application/json", "", some (.obj [])⟩

/-- A bare 401 response with a non-JSON empty body. -/
def resp401 : BotResponse := ⟨401, none, "", none⟩

/-- A 2xx refresh response carrying the rotated pair `A2`/`R2`. -/
def refreshOkResp : BotResponse :=
  ⟨200, some "application/json", "",
   some (.obj [("accessToken", .str "A2"), ("refreshToken", .str "R2")])⟩

/-- A backend answering every call with the same response. -/
def constBackend (r : BotResponse) : Backend := fun _ _ => some r

/-- A backend scripted by call number: answers the `i`-th call (0-based)
with `script i`. -/
def scriptedBackend (script : Nat → Option BotResponse) : Backend :=
  fun hist _ => script hist.length

/-- Script for the reactive-refresh scenario: first target call 401,
refresh accepted with `A2`/`R2`, retry 200. -/
def c2Script : Nat → Option BotResponse
  | 0 => some resp401
  | 1 => some refreshOkResp
  | _ => some okEmptyResp

/-- Script for the proactive-refresh scenario: refresh accepted with
`A2`/`R2`, then the target endpoint answers 200. -/
def c3Script : Nat → Option BotResponse
  | 0 => some refreshOkResp
  | _ => some okEmptyResp

/-- Script refuting the claim that a proactive refresh is followed by at
most one further call: refresh accepted, target 401, second refresh
rejected. -/
def c3CounterScript : Nat → Option BotResponse
  | 0 => some refreshOkResp
  | 1 => some resp401
  | _ => some ⟨401, none, "", none⟩

/-- Script for a failing proactive refresh: the refresh endpoint answers
500. -/
def c4ProactiveScript : Nat → Option BotResponse
  | _ => some ⟨500, none, "", none⟩

/-- Script for a failing reactive refresh: target 401, then refresh 500. -/
def c4ReactiveScript : Nat → Option BotResponse
  | 0 => some resp401
  | _ => some ⟨500, none, "", none⟩

/-- Script for a failing second refresh: proactive refresh accepted,
target 401, reactive refresh 500. -/
def c4DoubleScript : Nat → Option BotResponse
  | 0 => some refreshOkResp
  | 1 => some resp401
  | _ => some ⟨500, none, "", none⟩

/-- A 2xx refresh response whose payload is not an object. -/
def malformedRefreshResp : BotResponse :=
  ⟨200, some "application/json", "", some (.str "nope")⟩

/-- Script for a malformed proactive refresh payload. -/
def c10ProactiveScript : Nat → Option BotResponse
  | _ => some malformedRefreshResp

/-- Script for a malformed reactive refresh payload: target 401, then a
2xx refresh whose payload lacks the refresh token. -/
def c10ReactiveScript : Nat → Option BotResponse
  | 0 => some resp401
  | _ => some ⟨200, some "application/json", "",
      some (.obj [("accessToken", .str "A2")])⟩

/-- A token field that is missing or empty: absent from the object, or one
of the JS-falsy JSON scalars (`null`, `false`, `0`, `""`).  On exactly
these values the source's runtime truthiness check
(`!accessToken || !refreshToken`) rejects the field, and the declared
string type carries no token either. -/
def missingOrEmptyField (v : Option Json) : Prop :=
  v = none ∨ v = some .null ∨ v = some (.bool false) ∨
    v = some (.num 0) ∨ v = some (.str "")

/-- The malformed refresh payloads named by the specification: not an
object, or the `accessToken` or `refreshToken` field is missing or empty.
On this scope the source's truthiness check returns `null` and the
declared-type model agrees; a payload whose token field is a truthy
non-string (e.g. a number) is adopted by the source at runtime and lies
outside this scope. -/
def malformedTokenPayload (p : Json) : Prop :=
  match p with
  | .obj fields =>
    missingOrEmptyField (jLookup fields "accessToken") ∨
    missingOrEmptyField (jLookup fields "refreshToken")
  | _ => True

theorem callsOf_append (a b : List ProxyEvent) :
    callsOf (a ++ b) = callsOf a ++ callsOf b := by
  simp [callsOf, List.filterMap_append]

theorem callsOf_cookieWrites (ws : List CookieWrite) :
    callsOf (ws.map ProxyEvent.cookieWrite) = [] := by
  simp [callsOf, List.filterMap_map]

theorem botApiRequest_eq_none (env : Env) (backend : Backend)
    (events : List ProxyEvent) (path : String) (init : RequestInit)
    (h : backend (callsOf events) (mkBackendCall env path init) = none) :
    botApiRequest env backend events path init =
      (.error .transport, events ++ [.call (mkBackendCall env path init)]) := by
  unfold botApiRequest
  simp only [h]

theorem botApiRequest_eq_some (env : Env) (backend : Backend)
    (events : List ProxyEvent) (path : String) (init : RequestInit)
    (r : BotResponse)
    (h : backend (callsOf events) (mkBackendCall env path init) = some r) :
    botApiRequest env backend events path init =
      (.ok r, events ++ [.call (mkBackendCall env path init)]) := by
  unfold botApiRequest
  simp only [h]

theorem botApiRequest_events (env : Env) (backend : Backend)
    (events : List ProxyEvent) (path : String) (init : RequestInit) :
    (botApiRequest env backend events path init).2 =
      events ++ [.call (mkBackendCall env path init)] := by
  cases h : backend (callsOf events) (mkBackendCall env path init) with
  | none => rw [botApiRequest_eq_none env backend events path init h]
  | some r => rw [botApiRequest_eq_some env backend events path init r h]

theorem refreshSessionTokens_eq_notOk (env : Env) (backend : Backend)
    (events : List ProxyEvent) (rt : String) (resp : BotResponse)
    (h : backend (callsOf events) (refreshCall env rt) = some resp)
    (hok : respOk resp = false) :
    refreshSessionTokens env backend events rt =
      (.ok none, events ++ [.call (refreshCall env rt)]) := by
  simp only [refreshCall] at h
  unfold refreshSessionTokens
  rw [botApiRequest_eq_some env backend events _ _ resp h]
  simp [hok, refreshCall]

theorem refreshSessionTokens_eq_okPayload (env : Env) (backend : Backend)
    (events : List ProxyEvent) (rt : String) (resp : BotResponse) (p : Json)
    (h : backend (callsOf events) (refreshCall env rt) = some resp)
    (hok : respOk resp = true)
    (hp : readBotApiPayload resp = .ok p) :
    refreshSessionTokens env backend events rt =
      (.ok (parseTokens p), events ++ [.call (refreshCall env rt)]) := by
  simp only [refreshCall] at h
  unfold refreshSessionTokens
  rw [botApiRequest_eq_some env backend events _ _ resp h]
  simp [hok, hp, refreshCall]

theorem refreshSessionTokens_events (env : Env) (backend : Backend)
    (events : List ProxyEvent) (rt : String) :
    (refreshSessionTokens env backend events rt).2 =
      events ++ [.call (refreshCall env rt)] := by
  unfold refreshSessionTokens
  cases h : backend (callsOf events) (mkBackendCall env "/admin/auth/refresh" (refreshInit rt)) with
  | none =>
    rw [botApiRequest_eq_none env backend events _ _ h]
    simp [refreshCall]
  | some resp =>
    rw [botApiRequest_eq_some env backend events _ _ resp h]
    cases hok : respOk resp with
    | false => simp [hok, refreshCall]
    | true =>
      cases hp : readBotApiPayload resp with
      | error e => simp [hok, hp, refreshCall]
      | ok p => simp [hok, hp, refreshCall]

theorem proxy_noSession (env : Env) (backend : Backend)
    (stored : StoredTokenCookies) (path : String) (init : RequestInit)
    (hA : truthy stored.accessToken = false)
    (hR : truthy stored.refreshToken = false) :
    proxyAuthedAdminRequest env backend stored path init =
      respondUnauthorized env [] := by
  unfold proxyAuthedAdminRequest
  simp [hA, hR]

theorem proxy_accessOnly (env : Env) (backend : Backend)
    (stored : StoredTokenCookies) (path : String) (init : RequestInit)
    (hA : truthy stored.accessToken = true)
    (hR : truthy stored.refreshToken = false) :
    proxyAuthedAdminRequest env backend stored path init =
      respondUnauthorized env [] := by
  unfold proxyAuthedAdminRequest
  simp [hA, hR]

theorem proxy_bothTokens (env : Env) (backend : Backend)
    (stored : StoredTokenCookies) (path : String) (init : RequestInit)
    (hA : truthy stored.accessToken = true)
    (hR : truthy stored.refreshToken = true) :
    proxyAuthedAdminRequest env backend stored path init =
      proxyCore env backend path init
        ⟨stored.accessToken.getD "", stored.refreshToken.getD ""⟩ none [] := by
  unfold proxyAuthedAdminRequest
  simp [hA, hR]

theorem proxy_refreshOnly (env : Env) (backend : Backend)
    (stored : StoredTokenCookies) (path : String) (init : RequestInit)
    (hA : truthy stored.accessToken = false)
    (hR : truthy stored.refreshToken = true) :
    proxyAuthedAdminRequest env backend stored path init =
      (match refreshSessionTokens env backend [] (stored.refreshToken.getD "") with
       | (.error e, events) => ⟨.error e, events⟩
       | (.ok none, events) => respondUnauthorized env events
       | (.ok (some refreshed), events) =>
         proxyCore env backend path init refreshed (some refreshed) events) := by
  unfold proxyAuthedAdminRequest
  simp [hA, hR]

theorem finishProxy_eq_clear (env : Env) (br : BotResponse)
    (rt : Option StoredAdminTokens) (events : List ProxyEvent) (p : Json)
    (hp : readBotApiPayload br = .ok p) (hst : br.status = 401) :
    finishProxy env br rt events =
      ⟨.ok ⟨401, p, clearedCookiePair env⟩,
       events ++ (clearedCookiePair env).map ProxyEvent.cookieWrite⟩ := by
  unfold finishProxy
  rw [hp]
  simp [hst, clearStoredAdminTokens]

theorem finishProxy_eq_set (env : Env) (br : BotResponse)
    (t : StoredAdminTokens) (events : List ProxyEvent) (p : Json)
    (hp : readBotApiPayload br = .ok p) (hst : br.status ≠ 401) :
    finishProxy env br (some t) events =
      ⟨.ok ⟨br.status, p, setCookiePair env t⟩,
       events ++ (setCookiePair env t).map ProxyEvent.cookieWrite⟩ := by
  unfold finishProxy
  rw [hp]
  simp [hst, setStoredAdminTokens]

theorem finishProxy_eq_plain (env : Env) (br : BotResponse)
    (events : List ProxyEvent) (p : Json)
    (hp : readBotApiPayload br = .ok p) (hst : br.status ≠ 401) :
    finishProxy env br none events = ⟨.ok ⟨br.status, p, []⟩, events⟩ := by
  unfold finishProxy
  rw [hp]
  simp [hst]

theorem proxyCore_eq_noRetry (env : Env) (backend : Backend) (path : String)
    (init : RequestInit) (active : StoredAdminTokens)
    (rt : Option StoredAdminTokens) (events : List ProxyEvent)
    (resp : BotResponse)
    (h : backend (callsOf events) (targetCall env path init active.accessToken) = some resp)
    (hst : resp.status ≠ 401) :
    proxyCore env backend path init active rt events =
      finishProxy env resp rt
        (events ++ [.call (targetCall env path init active.accessToken)]) := by
  simp only [targetCall] at h
  unfold proxyCore
  rw [botApiRequest_eq_some env backend events _ _ resp h]
  simp [hst, targetCall]

theorem proxyCore_eq_retry_refreshFailed (env : Env) (backend : Backend)
    (path : String) (init : RequestInit) (active : StoredAdminTokens)
    (rt : Option StoredAdminTokens) (events ev2 : List ProxyEvent)
    (resp : BotResponse)
    (h : backend (callsOf events) (targetCall env path init active.accessToken) = some resp)
    (hst : resp.status = 401)
    (htr : strTruthy active.refreshToken = true)
    (href : refreshSessionTokens env backend
      (events ++ [.call (targetCall env path init active.accessToken)])
      active.refreshToken = (.ok none, ev2)) :
    proxyCore env backend path init active rt events =
      respondUnauthorized env ev2 := by
  simp only [targetCall] at h
  unfold proxyCore
  rw [botApiRequest_eq_some env backend events _ _ resp h]
  simp only [targetCall] at href
  simp [hst, htr, href]

theorem proxyCore_eq_retry_refreshOk (env : Env) (backend : Backend)
    (path : String) (init : RequestInit) (active : StoredAdminTokens)
    (rt : Option StoredAdminTokens) (events ev2 : List ProxyEvent)
    (resp : BotResponse) (t : StoredAdminTokens) (resp2 : BotResponse)
    (h : backend (callsOf events) (targetCall env path init active.accessToken) = some resp)
    (hst : resp.status = 401)
    (htr : strTruthy active.refreshToken = true)
    (href : refreshSessionTokens env backend
      (events ++ [.call (targetCall env path init active.accessToken)])
      active.refreshToken = (.ok (some t), ev2))
    (h3 : backend (callsOf ev2) (targetCall env path init t.accessToken) = some resp2) :
    proxyCore env backend path init active rt events =
      finishProxy env resp2 (some t)
        (ev2 ++ [.call (targetCall env path init t.accessToken)]) := by
  simp only [targetCall] at h h3
  unfold proxyCore
  rw [botApiRequest_eq_some env backend events _ _ resp h]
  simp only [targetCall] at href
  simp only [hst, htr, href]
  rw [botApiRequest_eq_some env backend ev2 _ _ resp2 h3]
  simp [targetCall]

theorem callsOf_nil : callsOf [] = [] := rfl

theorem callsOf_cons_call (c : BackendCall) (rest : List ProxyEvent) :
    callsOf (ProxyEvent.call c :: rest) = c :: callsOf rest := rfl

theorem callsOf_cons_write (w : CookieWrite) (rest : List ProxyEvent) :
    callsOf (ProxyEvent.cookieWrite w :: rest) = callsOf rest := rfl

theorem respondUnauthorized_calls (env : Env) (events : List ProxyEvent) :
    callsOf (respondUnauthorized env events).events = callsOf events := by
  simp [respondUnauthorized, callsOf_append, callsOf_cookieWrites]

theorem finishProxy_calls (env : Env) (br : BotResponse)
    (rt : Option StoredAdminTokens) (events : List ProxyEvent) :
    callsOf (finishProxy env br rt events).events = callsOf events := by
  unfold finishProxy
  cases hp : readBotApiPayload br with
  | error e => simp
  | ok p =>
    by_cases hst : br.status = 401
    · simp [hst, callsOf_append, callsOf_cookieWrites]
    · cases rt with
      | none => simp [hst]
      | some t => simp [hst, callsOf_append, callsOf_cookieWrites]

theorem proxyCore_calls_head (env : Env) (backend : Backend) (path : String)
    (init : RequestInit) (active : StoredAdminTokens)
    (rt : Option StoredAdminTokens) (events : List ProxyEvent) :
    ∃ rest, callsOf (proxyCore env backend path init active rt events).events =
      callsOf events ++ targetCall env path init active.accessToken :: rest := by
  unfold proxyCore
  cases h : backend (callsOf events) (mkBackendCall env path (withBearerToken init active.accessToken)) with
  | none =>
    rw [botApiRequest_eq_none env backend events _ _ h]
    exact ⟨[], by simp [callsOf_append, callsOf_cons_call, callsOf_nil, targetCall]⟩
  | some resp =>
    rw [botApiRequest_eq_some env backend events _ _ resp h]
    by_cases hcond : resp.status = 401 ∧ strTruthy active.refreshToken = true
    · simp only [hcond, and_self, ite_true]
      rcases hrf : refreshSessionTokens env backend
        (events ++ [.call (mkBackendCall env path (withBearerToken init active.accessToken))])
        active.refreshToken with ⟨res, ev2⟩
      have hev2 : ev2 = events ++ [.call (mkBackendCall env path (withBearerToken init active.accessToken))]
          ++ [.call (refreshCall env active.refreshToken)] := by
        have he := refreshSessionTokens_events env backend
          (events ++ [.call (mkBackendCall env path (withBearerToken init active.accessToken))])
          active.refreshToken
        rw [hrf] at he
        exact he
      cases res with
      | error e =>
        simp only [hrf]
        exact ⟨[refreshCall env active.refreshToken],
          by simp [hev2, callsOf_append, callsOf_cons_call, callsOf_nil, targetCall]⟩
      | ok o =>
        cases o with
        | none =>
          simp only [hrf]
          exact ⟨[refreshCall env active.refreshToken],
            by simp [respondUnauthorized_calls, hev2, callsOf_append, callsOf_cons_call,
              callsOf_nil, targetCall]⟩
        | some t =>
          simp only [hrf]
          cases h3 : backend (callsOf ev2) (mkBackendCall env path (withBearerToken init t.accessToken)) with
          | none =>
            rw [botApiRequest_eq_none env backend ev2 _ _ h3]
            exact ⟨[refreshCall env active.refreshToken,
                targetCall env path init t.accessToken],
              by simp [hev2, callsOf_append, callsOf_cons_call, callsOf_nil, targetCall]⟩
          | some resp2 =>
            rw [botApiRequest_eq_some env backend ev2 _ _ resp2 h3]
            exact ⟨[refreshCall env active.refreshToken,
                targetCall env path init t.accessToken],
              by simp [finishProxy_calls, hev2, callsOf_append, callsOf_cons_call,
                callsOf_nil, targetCall]⟩
    · simp only [hcond, ite_false]
      exact ⟨[], by simp [finishProxy_calls, callsOf_append, callsOf_cons_call,
        callsOf_nil, targetCall]⟩

theorem directRelayRoute_calls (env : Env) (backend : Backend) (path : String)
    (init : RequestInit) :
    callsOf (directRelayRoute env backend path init).events =
      [mkBackendCall env path init] := by
  unfold directRelayRoute
  cases h : backend (callsOf []) (mkBackendCall env path init) with
  | none =>
    rw [botApiRequest_eq_none env backend [] _ _ h]
    simp [callsOf_cons_call, callsOf_nil]
  | some resp =>
    rw [botApiRequest_eq_some env backend [] _ _ resp h]
    cases hp : readBotApiPayload resp with
    | error e => simp [hp, callsOf_cons_call, callsOf_nil]
    | ok p => simp [hp, callsOf_cons_call, callsOf_nil]

/-- Claim C8, counterexample: a backend response whose content-type claims
JSON but whose body is not valid JSON makes `readBotApiPayload` raise the
parse exception of `response.json()` instead of returning a JSON-shaped
value, so the claim that it never raises a parse exception is false as
stated. -/
theorem c8_counterexample :
    readBotApiPayload ⟨200, some "application/json", "not json", none⟩ =
      Except.error JsError.jsonParse := rfl

/-- Claim C8, amended: `readBotApiPayload` returns a JSON-shaped value for
every response whose content-type does not indicate JSON (the body text
wrapped as a message, with the fixed fallback for an empty body) and for
every JSON-content-type response whose body parses (the parsed body); when
the content-type claims JSON but the body is not valid JSON, the parse
exception propagates to the caller. -/
theorem c8_readPayload_amended (r : BotResponse) :
    (strIncludes (r.contentType.getD "") "application/json" = false →
      readBotApiPayload r = .ok (.obj [("message",
        .str (if r.bodyText = "" then readErrorMessage r.status else r.bodyText))])) ∧
    (strIncludes (r.contentType.getD "") "application/json" = true →
      (∀ v, r.jsonResult = some v → readBotApiPayload r = .ok v) ∧
      (r.jsonResult = none → readBotApiPayload r = .error .jsonParse)) := by
  refine ⟨fun hct => ?_, fun hct => ⟨fun v hv => ?_, fun hv => ?_⟩⟩
  · unfold readBotApiPayload
    simp [hct]
  · unfold readBotApiPayload
    simp [hct, hv]
  · unfold readBotApiPayload
    simp [hct, hv]

/-- Witness for the amended C8 theorem: a plain-text 503 response with an
empty body is wrapped with the fallback message, and a JSON 200 response
is parsed and returned. -/
theorem c8_readPayload_amended_witness :
    readBotApiPayload ⟨503, none, "", none⟩ =
      .ok (.obj [("message", .str "Bot API request failed with status 503")]) ∧
    readBotApiPayload okEmptyResp = .ok (.obj []) := by
  constructor
  · exact (c8_readPayload_amended ⟨503, none, "", none⟩).1 rfl
  · exact ((c8_readPayload_amended okEmptyResp).2 rfl).1 (.obj []) rfl

/-- Claim C5, counterexample: with an access token stored but the refresh
token absent, the proxy answers 401 immediately and issues no backend
call, refuting the claim that every stored-token state with a non-empty
access token leads to a backend request carrying that token. -/
theorem c5_counterexample :
    resultStatus (proxyAuthedAdminRequest envDev (constBackend okEmptyResp)
      ⟨some "A1", none⟩ "/admin/overview" defaultInit) = some 401 ∧
    callsOf (proxyAuthedAdminRequest envDev (constBackend okEmptyResp)
      ⟨some "A1", none⟩ "/admin/overview" defaultInit).events = [] :=
  ⟨rfl, rfl⟩

/-- Claim C5, amended: the proxy returns an immediate 401 with no backend
call both when neither token is truthy and when the refresh token is
absent or empty (even though an access token is stored); only when both
stored tokens are truthy does it issue the backend request, with the
stored access token attached as a bearer authorization header. -/
theorem c5_gate_amended (env : Env) (backend : Backend)
    (stored : StoredTokenCookies) (path : String) (init : RequestInit) :
    (truthy stored.accessToken = false → truthy stored.refreshToken = false →
      proxyAuthedAdminRequest env backend stored path init =
        respondUnauthorized env []) ∧
    (truthy stored.accessToken = true → truthy stored.refreshToken = false →
      proxyAuthedAdminRequest env backend stored path init =
        respondUnauthorized env []) ∧
    (truthy stored.accessToken = true → truthy stored.refreshToken = true →
      ∃ rest, callsOf (proxyAuthedAdminRequest env backend stored path init).events =
        targetCall env path init (stored.accessToken.getD "") :: rest) := by
  refine ⟨fun hA hR => proxy_noSession env backend stored path init hA hR,
    fun hA hR => proxy_accessOnly env backend stored path init hA hR,
    fun hA hR => ?_⟩
  rw [proxy_bothTokens env backend stored path init hA hR]
  obtain ⟨rest, hrest⟩ := proxyCore_calls_head env backend path init
    ⟨stored.accessToken.getD "", stored.refreshToken.getD ""⟩ none []
  exact ⟨rest, by simpa [callsOf_nil] using hrest⟩

/-- Witness for the amended C5 theorem: the three stored-token states at
concrete inputs — no cookies, access-only, and both tokens present. -/
theorem c5_gate_amended_witness :
    proxyAuthedAdminRequest envDev (constBackend okEmptyResp)
      ⟨none, none⟩ "/admin/admins" defaultInit = respondUnauthorized envDev [] ∧
    proxyAuthedAdminRequest envDev (constBackend okEmptyResp)
      ⟨some "A1", none⟩ "/admin/admins" defaultInit = respondUnauthorized envDev [] ∧
    ∃ rest, callsOf (proxyAuthedAdminRequest envDev (constBackend okEmptyResp)
      ⟨some "A1", some "R1"⟩ "/admin/admins" defaultInit).events =
        targetCall envDev "/admin/admins" defaultInit "A1" :: rest :=
  ⟨(c5_gate_amended envDev (constBackend okEmptyResp)
      ⟨none, none⟩ "/admin/admins" defaultInit).1 rfl rfl,
   (c5_gate_amended envDev (constBackend okEmptyResp)
      ⟨some "A1", none⟩ "/admin/admins" defaultInit).2.1 rfl rfl,
   (c5_gate_amended envDev (constBackend okEmptyResp)
      ⟨some "A1", some "R1"⟩ "/admin/admins" defaultInit).2.2 rfl rfl⟩

/-- Claim C1, counterexample: the overview route handler, called with both
session cookies absent, relays the backend's 200 and issues one outbound
backend call, refuting the claim that every admin route handler returns
401 with zero backend calls in that state. -/
theorem c1_counterexample :
    resultStatus (overviewGET envDev (constBackend okEmptyResp)) = some 200 ∧
    (callsOf (overviewGET envDev (constBackend okEmptyResp)).events).length = 1 :=
  ⟨rfl, rfl⟩

/-- Claim C1, amended: with both session cookies absent, the handlers that
delegate to the authenticated proxy (the admins handlers and the
alternate-revision proxied presentations, presentation-fail and auth/me
handlers) return 401 with zero backend calls; the overview, users,
broadcast and presentation-fail handlers under `src/app/api` perform no
session check and issue exactly one backend call, carrying no
authorization header, regardless of the cookie state. -/
theorem c1_route_gate_amended (env : Env) (backend : Backend)
    (queryString id : String) (body : Json) :
    adminsGET env backend ⟨none, none⟩ = respondUnauthorized env [] ∧
    adminsPOST env backend ⟨none, none⟩ (some body) = respondUnauthorized env [] ∧
    presentationsGETProxied env backend ⟨none, none⟩ queryString =
      respondUnauthorized env [] ∧
    presentationFailPOSTProxied env backend ⟨none, none⟩ id =
      respondUnauthorized env [] ∧
    authMeGET env backend ⟨none, none⟩ = respondUnauthorized env [] ∧
    callsOf (overviewGET env backend).events =
      [mkBackendCall env "/admin/overview" defaultInit] ∧
    (callsOf (usersGET env backend queryString).events).length = 1 ∧
    (callsOf (broadcastPOST env backend (some body)).events).length = 1 ∧
    (callsOf (presentationFailPOST env backend id).events).length = 1 ∧
    (mkBackendCall env "/admin/overview" defaultInit).authorization = none := by
  refine ⟨proxy_noSession env backend _ _ _ rfl rfl,
    proxy_noSession env backend _ _ _ rfl rfl,
    proxy_noSession env backend _ _ _ rfl rfl,
    proxy_noSession env backend _ _ _ rfl rfl,
    proxy_noSession env backend _ _ _ rfl rfl,
    ?_, ?_, ?_, ?_, rfl⟩
  · exact directRelayRoute_calls env backend "/admin/overview" defaultInit
  · rw [usersGET, directRelayRoute_calls]
    rfl
  · rw [broadcastPOST, directRelayRoute_calls]
    rfl
  · rw [presentationFailPOST, directRelayRoute_calls]
    rfl

/-- Claim C9: the logout route always answers 200 `{success: true}` with
both session cookies cleared, for every stored-token state and every
backend behaviour (including a backend whose logout call fails at the
transport level, which the handler swallows): no backend call is made when
no access token is stored, and exactly one bearer logout call is made when
one is. -/
theorem c9_logout (env : Env) (backend : Backend) (stored : StoredTokenCookies) :
    resultStatus (logoutPOST env backend stored) = some 200 ∧
    resultPayload (logoutPOST env backend stored) =
      some (.obj [("success", .bool true)]) ∧
    resultCookieWrites (logoutPOST env backend stored) =
      some (clearedCookiePair env) ∧
    callsOf (logoutPOST env backend stored).events =
      (if truthy stored.accessToken = true
       then [mkBackendCall env "/admin/auth/logout"
         ⟨"POST", none, some ("Bearer " ++ stored.accessToken.getD "")⟩]
       else []) := by
  unfold logoutPOST
  by_cases hA : truthy stored.accessToken = true
  · simp only [hA, ite_true]
    refine ⟨rfl, rfl, by simp [resultCookieWrites, clearStoredAdminTokens], ?_⟩
    rw [botApiRequest_events]
    simp [callsOf_append, callsOf_cookieWrites, callsOf_cons_call, callsOf_nil]
  · simp only [hA, ite_false]
    exact ⟨rfl, rfl, by simp [resultCookieWrites, clearStoredAdminTokens],
      by simp [callsOf_append, callsOf_cookieWrites, callsOf_nil]⟩

/-- Claim C2: with both tokens stored, the target endpoint answering 401
to the first request, and the refresh endpoint accepting the refresh
token, the proxy performs exactly one refresh call and exactly one retry
of the target endpoint — three backend calls in total, in that order —
and the retried response is final: its status and payload are relayed to
the caller; if the retry also answers 401 no further calls are made, that
401 is the final status and both session cookies are cleared, and
otherwise the rotated pair is persisted. -/
theorem c2_reactive_refresh (env : Env) (backend : Backend) (path : String)
    (init : RequestInit) (a r a2 r2 : String)
    (resp1 rresp resp2 : BotResponse) (rp p2 : Json)
    (ha : a ≠ "") (hr : r ≠ "")
    (h1 : backend [] (targetCall env path init a) = some resp1)
    (h1s : resp1.status = 401)
    (h2 : backend [targetCall env path init a] (refreshCall env r) = some rresp)
    (h2ok : respOk rresp = true)
    (h2p : readBotApiPayload rresp = .ok rp)
    (h2t : parseTokens rp = some ⟨a2, r2⟩)
    (h3 : backend [targetCall env path init a, refreshCall env r]
      (targetCall env path init a2) = some resp2)
    (h3p : readBotApiPayload resp2 = .ok p2) :
    callsOf (proxyAuthedAdminRequest env backend ⟨some a, some r⟩ path init).events =
      [targetCall env path init a, refreshCall env r, targetCall env path init a2] ∧
    resultStatus (proxyAuthedAdminRequest env backend ⟨some a, some r⟩ path init) =
      some resp2.status ∧
    resultPayload (proxyAuthedAdminRequest env backend ⟨some a, some r⟩ path init) =
      some p2 ∧
    (resp2.status = 401 →
      resultCookieWrites (proxyAuthedAdminRequest env backend ⟨some a, some r⟩ path init) =
        some (clearedCookiePair env)) ∧
    (resp2.status ≠ 401 →
      resultCookieWrites (proxyAuthedAdminRequest env backend ⟨some a, some r⟩ path init) =
        some (setCookiePair env ⟨a2, r2⟩)) := by
  have hA : truthy (some a) = true := by simp [truthy, strTruthy, ha]
  have hR : truthy (some r) = true := by simp [truthy, strTruthy, hr]
  have hboth := proxy_bothTokens env backend ⟨some a, some r⟩ path init hA hR
  simp only [Option.getD] at hboth
  have href : refreshSessionTokens env backend
      ([] ++ [.call (targetCall env path init a)]) r =
      (.ok (some ⟨a2, r2⟩), [] ++ [.call (targetCall env path init a)]
        ++ [.call (refreshCall env r)]) := by
    rw [refreshSessionTokens_eq_okPayload env backend _ r rresp rp
      (by simpa [callsOf_append, callsOf_cons_call, callsOf_nil] using h2) h2ok h2p]
    rw [h2t]
  have hcore := proxyCore_eq_retry_refreshOk env backend path init ⟨a, r⟩ none
    [] _ resp1 ⟨a2, r2⟩ resp2
    (by simpa [callsOf_nil] using h1) h1s (by simp [strTruthy, hr]) href
    (by simpa [callsOf_append, callsOf_cons_call, callsOf_nil] using h3)
  have hrun : proxyAuthedAdminRequest env backend ⟨some a, some r⟩ path init =
      finishProxy env resp2 (some ⟨a2, r2⟩)
        ([] ++ [.call (targetCall env path init a)] ++ [.call (refreshCall env r)]
          ++ [.call (targetCall env path init a2)]) := by
    rw [hboth, hcore]
  refine ⟨?_, ?_, ?_, fun h401 => ?_, fun hne => ?_⟩
  · rw [hrun, finishProxy_calls]
    simp [callsOf_append, callsOf_cons_call, callsOf_nil]
  · rw [hrun]
    by_cases hst : resp2.status = 401
    · rw [finishProxy_eq_clear env resp2 _ _ p2 h3p hst]
      simp [resultStatus, hst]
    · rw [finishProxy_eq_set env resp2 _ _ p2 h3p hst]
      simp [resultStatus]
  · rw [hrun]
    by_cases hst : resp2.status = 401
    · rw [finishProxy_eq_clear env resp2 _ _ p2 h3p hst]
      simp [resultPayload]
    · rw [finishProxy_eq_set env resp2 _ _ p2 h3p hst]
      simp [resultPayload]
  · rw [hrun, finishProxy_eq_clear env resp2 _ _ p2 h3p h401]
    simp [resultCookieWrites]
  · rw [hrun, finishProxy_eq_set env resp2 _ _ p2 h3p hne]
    simp [resultCookieWrites]

/-- Witness for the C2 theorem: a scripted backend answering 401, then an
accepted refresh rotating to `A2`/`R2`, then 200 on the retry; the proxy
makes exactly the three calls, relays the 200 with the retried payload,
and persists the rotated pair. -/
theorem c2_reactive_refresh_witness :
    callsOf (proxyAuthedAdminRequest envDev (scriptedBackend c2Script)
      ⟨some "A1", some "R1"⟩ "/admin/admins" defaultInit).events =
      [targetCall envDev "/admin/admins" defaultInit "A1",
       refreshCall envDev "R1",
       targetCall envDev "/admin/admins" defaultInit "A2"] ∧
    resultStatus (proxyAuthedAdminRequest envDev (scriptedBackend c2Script)
      ⟨some "A1", some "R1"⟩ "/admin/admins" defaultInit) = some 200 ∧
    resultCookieWrites (proxyAuthedAdminRequest envDev (scriptedBackend c2Script)
      ⟨some "A1", some "R1"⟩ "/admin/admins" defaultInit) =
      some (setCookiePair envDev ⟨"A2", "R2"⟩) := by
  have h := c2_reactive_refresh envDev (scriptedBackend c2Script)
    "/admin/admins" defaultInit "A1" "R1" "A2" "R2"
    resp401 refreshOkResp okEmptyResp
    (.obj [("accessToken", .str "A2"), ("refreshToken", .str "R2")]) (.obj [])
    (by decide) (by decide) rfl rfl rfl rfl rfl rfl rfl rfl
  exact ⟨h.1, h.2.1, h.2.2.2.2 (by decide)⟩

/-- Claim C3, counterexample: with only a refresh token stored and a
backend refresh endpoint that accepts it, but a target endpoint that
answers 401 to the newly issued access token, the proxy issues a second
refresh call — three backend calls in total, two of them to the refresh
endpoint — refuting the claim that exactly one refresh call and one
target call are made whenever the refresh endpoint accepts the stored
token. -/
theorem c3_counterexample :
    ((callsOf (proxyAuthedAdminRequest envDev (scriptedBackend c3CounterScript)
      ⟨none, some "R1"⟩ "/admin/admins" defaultInit).events).countP
        (fun c => isRefreshCall envDev c)) = 2 ∧
    (callsOf (proxyAuthedAdminRequest envDev (scriptedBackend c3CounterScript)
      ⟨none, some "R1"⟩ "/admin/admins" defaultInit).events).length = 3 :=
  ⟨rfl, rfl⟩

/-- Claim C3, amended: with only a (truthy) refresh token stored, a
backend refresh endpoint that accepts it, and a target endpoint whose
answer to the new access token is not 401, the proxy makes exactly one
refresh call followed by exactly one call to the originally requested
endpoint carrying the new access token, relays the target's status and
payload, and persists the rotated pair.  (When the target answers 401 to
the refreshed token, the proxy instead runs its reactive
refresh-and-retry once more.) -/
theorem c3_proactive_refresh (env : Env) (backend : Backend) (path : String)
    (init : RequestInit) (acc : Option String) (r a2 r2 : String)
    (rresp resp : BotResponse) (rp p : Json)
    (hacc : truthy acc = false) (hr : r ≠ "")
    (h1 : backend [] (refreshCall env r) = some rresp)
    (h1ok : respOk rresp = true)
    (h1p : readBotApiPayload rresp = .ok rp)
    (h1t : parseTokens rp = some ⟨a2, r2⟩)
    (h2 : backend [refreshCall env r] (targetCall env path init a2) = some resp)
    (h2s : resp.status ≠ 401)
    (h2p : readBotApiPayload resp = .ok p) :
    callsOf (proxyAuthedAdminRequest env backend ⟨acc, some r⟩ path init).events =
      [refreshCall env r, targetCall env path init a2] ∧
    resultStatus (proxyAuthedAdminRequest env backend ⟨acc, some r⟩ path init) =
      some resp.status ∧
    resultPayload (proxyAuthedAdminRequest env backend ⟨acc, some r⟩ path init) =
      some p ∧
    resultCookieWrites (proxyAuthedAdminRequest env backend ⟨acc, some r⟩ path init) =
      some (setCookiePair env ⟨a2, r2⟩) := by
  have hR : truthy (some r) = true := by simp [truthy, strTruthy, hr]
  have honly := proxy_refreshOnly env backend ⟨acc, some r⟩ path init hacc hR
  simp only [Option.getD] at honly
  have href : refreshSessionTokens env backend [] r =
      (.ok (some ⟨a2, r2⟩), [] ++ [.call (refreshCall env r)]) := by
    rw [refreshSessionTokens_eq_okPayload env backend [] r rresp rp
      (by simpa [callsOf_nil] using h1) h1ok h1p]
    rw [h1t]
  rw [href] at honly
  have hcore := proxyCore_eq_noRetry env backend path init ⟨a2, r2⟩
    (some ⟨a2, r2⟩) ([] ++ [.call (refreshCall env r)]) resp
    (by simpa [callsOf_append, callsOf_cons_call, callsOf_nil] using h2) h2s
  have hrun : proxyAuthedAdminRequest env backend ⟨acc, some r⟩ path init =
      finishProxy env resp (some ⟨a2, r2⟩)
        ([] ++ [.call (refreshCall env r)] ++ [.call (targetCall env path init a2)]) := by
    rw [honly]
    exact hcore
  rw [hrun, finishProxy_eq_set env resp _ _ p h2p h2s]
  refine ⟨?_, rfl, rfl, rfl⟩
  simp [callsOf_append, callsOf_cons_call, callsOf_nil, callsOf_cookieWrites]

/-- Witness for the amended C3 theorem: a scripted backend that accepts
the stored refresh token, rotating to `A2`/`R2`, then answers 200 on the
target endpoint; the proxy makes exactly the two calls and persists the
rotated pair. -/
theorem c3_proactive_refresh_witness :
    callsOf (proxyAuthedAdminRequest envDev (scriptedBackend c3Script)
      ⟨none, some "R1"⟩ "/admin/admins" defaultInit).events =
      [refreshCall envDev "R1", targetCall envDev "/admin/admins" defaultInit "A2"] ∧
    resultStatus (proxyAuthedAdminRequest envDev (scriptedBackend c3Script)
      ⟨none, some "R1"⟩ "/admin/admins" defaultInit) = some 200 ∧
    resultCookieWrites (proxyAuthedAdminRequest envDev (scriptedBackend c3Script)
      ⟨none, some "R1"⟩ "/admin/admins" defaultInit) =
      some (setCookiePair envDev ⟨"A2", "R2"⟩) := by
  have h := c3_proactive_refresh envDev (scriptedBackend c3Script)
    "/admin/admins" defaultInit none "R1" "A2" "R2"
    refreshOkResp okEmptyResp
    (.obj [("accessToken", .str "A2"), ("refreshToken", .str "R2")]) (.obj [])
    rfl (by decide) rfl rfl rfl rfl rfl (by decide) rfl
  exact ⟨h.1, h.2.1, h.2.2.2⟩

theorem parseTokens_nonempty (p : Json) (t : StoredAdminTokens)
    (h : parseTokens p = some t) :
    t.accessToken ≠ "" ∧ t.refreshToken ≠ "" := by
  unfold parseTokens at h
  split at h
  · simp at h
  · split at h
    all_goals try simp at h
    split at h <;> simp at h
    obtain ⟨ha, hr, ht⟩ := h
    subst ht
    exact ⟨ha, hr⟩

/-- Claim C4: whenever the backend refresh endpoint answers non-2xx —
during the proactive refresh, during the reactive refresh after a target
401, or during the second refresh following a successful proactive one —
the proxy makes no further backend calls, the final response is the
`unauthorizedResponse` 401, and both token cookies are written as cleared
(empty value, already-expired timestamp). -/
theorem c4_refresh_failure (env : Env) (backend : Backend) (path : String)
    (init : RequestInit) :
    (∀ (acc : Option String) (r : String) (rresp : BotResponse),
      truthy acc = false → r ≠ "" →
      backend [] (refreshCall env r) = some rresp → respOk rresp = false →
      proxyAuthedAdminRequest env backend ⟨acc, some r⟩ path init =
        respondUnauthorized env [.call (refreshCall env r)]) ∧
    (∀ (a r : String) (resp1 rresp : BotResponse),
      a ≠ "" → r ≠ "" →
      backend [] (targetCall env path init a) = some resp1 →
      resp1.status = 401 →
      backend [targetCall env path init a] (refreshCall env r) = some rresp →
      respOk rresp = false →
      proxyAuthedAdminRequest env backend ⟨some a, some r⟩ path init =
        respondUnauthorized env
          [.call (targetCall env path init a), .call (refreshCall env r)]) ∧
    (∀ (acc : Option String) (r a2 r2 : String)
      (rresp1 resp1 rresp2 : BotResponse) (rp : Json),
      truthy acc = false → r ≠ "" →
      backend [] (refreshCall env r) = some rresp1 → respOk rresp1 = true →
      readBotApiPayload rresp1 = .ok rp → parseTokens rp = some ⟨a2, r2⟩ →
      backend [refreshCall env r] (targetCall env path init a2) = some resp1 →
      resp1.status = 401 →
      backend [refreshCall env r, targetCall env path init a2]
        (refreshCall env r2) = some rresp2 →
      respOk rresp2 = false →
      proxyAuthedAdminRequest env backend ⟨acc, some r⟩ path init =
        respondUnauthorized env
          [.call (refreshCall env r), .call (targetCall env path init a2),
           .call (refreshCall env r2)]) ∧
    (∀ events, resultStatus (respondUnauthorized env events) = some 401 ∧
      resultCookieWrites (respondUnauthorized env events) =
        some (clearedCookiePair env)) := by
  refine ⟨?_, ?_, ?_, fun events => ⟨rfl, by
    simp [respondUnauthorized, unauthorizedResponse, clearStoredAdminTokens,
      resultCookieWrites]⟩⟩
  · intro acc r rresp hacc hr h1 h1ok
    have hR : truthy (some r) = true := by simp [truthy, strTruthy, hr]
    have honly := proxy_refreshOnly env backend ⟨acc, some r⟩ path init hacc hR
    simp only [Option.getD] at honly
    have href : refreshSessionTokens env backend [] r =
        (.ok none, [] ++ [.call (refreshCall env r)]) :=
      refreshSessionTokens_eq_notOk env backend [] r rresp
        (by simpa [callsOf_nil] using h1) h1ok
    rw [href] at honly
    rw [honly]
    rfl
  · intro a r resp1 rresp ha hr h1 h1s h2 h2ok
    have hA : truthy (some a) = true := by simp [truthy, strTruthy, ha]
    have hR : truthy (some r) = true := by simp [truthy, strTruthy, hr]
    have hboth := proxy_bothTokens env backend ⟨some a, some r⟩ path init hA hR
    simp only [Option.getD] at hboth
    have href : refreshSessionTokens env backend
        ([] ++ [.call (targetCall env path init a)]) r =
        (.ok none, [] ++ [.call (targetCall env path init a)]
          ++ [.call (refreshCall env r)]) :=
      refreshSessionTokens_eq_notOk env backend _ r rresp
        (by simpa [callsOf_append, callsOf_cons_call, callsOf_nil] using h2) h2ok
    have hcore := proxyCore_eq_retry_refreshFailed env backend path init
      ⟨a, r⟩ none [] _ resp1
      (by simpa [callsOf_nil] using h1) h1s (by simp [strTruthy, hr]) href
    rw [hboth, hcore]
    rfl
  · intro acc r a2 r2 rresp1 resp1 rresp2 rp hacc hr h1 h1ok h1p h1t h2 h2s h3 h3ok
    have hR : truthy (some r) = true := by simp [truthy, strTruthy, hr]
    have honly := proxy_refreshOnly env backend ⟨acc, some r⟩ path init hacc hR
    simp only [Option.getD] at honly
    have href0 : refreshSessionTokens env backend [] r =
        (.ok (some ⟨a2, r2⟩), [] ++ [.call (refreshCall env r)]) := by
      rw [refreshSessionTokens_eq_okPayload env backend [] r rresp1 rp
        (by simpa [callsOf_nil] using h1) h1ok h1p]
      rw [h1t]
    rw [href0] at honly
    have href1 : refreshSessionTokens env backend
        ([] ++ [.call (refreshCall env r)]
          ++ [.call (targetCall env path init a2)]) r2 =
        (.ok none, [] ++ [.call (refreshCall env r)]
          ++ [.call (targetCall env path init a2)]
          ++ [.call (refreshCall env r2)]) :=
      refreshSessionTokens_eq_notOk env backend _ r2 rresp2
        (by simpa [callsOf_append, callsOf_cons_call, callsOf_nil] using h3) h3ok
    have hr2 : r2 ≠ "" := (parseTokens_nonempty rp ⟨a2, r2⟩ h1t).2
    have hcore := proxyCore_eq_retry_refreshFailed env backend path init
      ⟨a2, r2⟩ (some ⟨a2, r2⟩) ([] ++ [.call (refreshCall env r)]) _ resp1
      (by simpa [callsOf_append, callsOf_cons_call, callsOf_nil] using h2)
      h2s (by simp [strTruthy, hr2]) href1
    rw [honly]
    exact hcore

/-- Witness for the C4 theorem: scripted backends whose refresh endpoint
answers 500 during the proactive refresh, the reactive refresh, and the
second refresh following a successful proactive one; each run ends in the
cleared-cookie 401 with the expected call trace. -/
theorem c4_refresh_failure_witness :
    proxyAuthedAdminRequest envDev (scriptedBackend c4ProactiveScript)
      ⟨none, some "R1"⟩ "/admin/admins" defaultInit =
      respondUnauthorized envDev [.call (refreshCall envDev "R1")] ∧
    proxyAuthedAdminRequest envDev (scriptedBackend c4ReactiveScript)
      ⟨some "A1", some "R1"⟩ "/admin/admins" defaultInit =
      respondUnauthorized envDev
        [.call (targetCall envDev "/admin/admins" defaultInit "A1"),
         .call (refreshCall envDev "R1")] ∧
    proxyAuthedAdminRequest envDev (scriptedBackend c4DoubleScript)
      ⟨none, some "R1"⟩ "/admin/admins" defaultInit =
      respondUnauthorized envDev
        [.call (refreshCall envDev "R1"),
         .call (targetCall envDev "/admin/admins" defaultInit "A2"),
         .call (refreshCall envDev "R2")] ∧
    resultStatus (respondUnauthorized envDev []) = some 401 := by
  refine ⟨?_, ?_, ?_, ?_⟩
  · exact (c4_refresh_failure envDev (scriptedBackend c4ProactiveScript)
      "/admin/admins" defaultInit).1 none "R1" ⟨500, none, "", none⟩
      rfl (by decide) rfl rfl
  · exact (c4_refresh_failure envDev (scriptedBackend c4ReactiveScript)
      "/admin/admins" defaultInit).2.1 "A1" "R1" resp401 ⟨500, none, "", none⟩
      (by decide) (by decide) rfl rfl rfl rfl
  · exact (c4_refresh_failure envDev (scriptedBackend c4DoubleScript)
      "/admin/admins" defaultInit).2.2.1 none "R1" "A2" "R2"
      refreshOkResp resp401 ⟨500, none, "", none⟩
      (.obj [("accessToken", .str "A2"), ("refreshToken", .str "R2")])
      rfl (by decide) rfl rfl rfl rfl rfl rfl rfl rfl
  · exact ((c4_refresh_failure envDev (constBackend okEmptyResp)
      "/admin/admins" defaultInit).2.2.2 []).1

theorem parseTokens_eq_none_of_malformed (p : Json)
    (h : malformedTokenPayload p) : parseTokens p = none := by
  cases p with
  | null => rfl
  | bool b =>
    unfold parseTokens
    split <;> rfl
  | num n =>
    unfold parseTokens
    split <;> rfl
  | str s =>
    unfold parseTokens
    split <;> rfl
  | arr xs => rfl
  | obj fields =>
    have h2 : missingOrEmptyField (jLookup fields "accessToken") ∨
        missingOrEmptyField (jLookup fields "refreshToken") := h
    unfold parseTokens
    rw [if_neg (by simp [jsFalsy])]
    show (match jLookup fields "accessToken", jLookup fields "refreshToken" with
      | some (Json.str a), some (Json.str r) =>
        if a = "" then none
        else if r = "" then none
        else some (⟨a, r⟩ : StoredAdminTokens)
      | _, _ => none) = none
    rcases hA : jLookup fields "accessToken" with _ | va
    · rcases hR : jLookup fields "refreshToken" with _ | vr
      · rfl
      · cases vr <;> rfl
    · rcases hR : jLookup fields "refreshToken" with _ | vr
      · cases va <;> rfl
      · rw [hA, hR] at h2
        cases va <;> cases vr <;> try rfl
        simp only [missingOrEmptyField] at h2
        simp at h2
        rcases h2 with h2 | h2 <;> simp [h2]

/-- Claim C10: a 2xx refresh response whose payload is not an object, or
whose `accessToken` or `refreshToken` field is missing or empty (absent,
JSON `null`/`false`/`0`, or the empty string — the scope on which the
source's truthiness check rejects the pair), is treated exactly like a
refresh failure, in both the proactive and the reactive position: the
proxy makes no further backend calls, the final response is the
`unauthorizedResponse` 401 with both token cookies cleared, and the
malformed pair is never adopted as active tokens nor persisted. -/
theorem c10_malformed_refresh (env : Env) (backend : Backend) (path : String)
    (init : RequestInit) :
    (∀ (acc : Option String) (r : String) (rresp : BotResponse) (rp : Json),
      truthy acc = false → r ≠ "" →
      backend [] (refreshCall env r) = some rresp → respOk rresp = true →
      readBotApiPayload rresp = .ok rp → malformedTokenPayload rp →
      proxyAuthedAdminRequest env backend ⟨acc, some r⟩ path init =
        respondUnauthorized env [.call (refreshCall env r)]) ∧
    (∀ (a r : String) (resp1 rresp : BotResponse) (rp : Json),
      a ≠ "" → r ≠ "" →
      backend [] (targetCall env path init a) = some resp1 →
      resp1.status = 401 →
      backend [targetCall env path init a] (refreshCall env r) = some rresp →
      respOk rresp = true → readBotApiPayload rresp = .ok rp →
      malformedTokenPayload rp →
      proxyAuthedAdminRequest env backend ⟨some a, some r⟩ path init =
        respondUnauthorized env
          [.call (targetCall env path init a), .call (refreshCall env r)]) ∧
    (∀ events, resultStatus (respondUnauthorized env events) = some 401 ∧
      resultCookieWrites (respondUnauthorized env events) =
        some (clearedCookiePair env)) := by
  refine ⟨?_, ?_, fun events => ⟨rfl, by
    simp [respondUnauthorized, unauthorizedResponse, clearStoredAdminTokens,
      resultCookieWrites]⟩⟩
  · intro acc r rresp rp hacc hr h1 h1ok h1p h1t
    have hR : truthy (some r) = true := by simp [truthy, strTruthy, hr]
    have honly := proxy_refreshOnly env backend ⟨acc, some r⟩ path init hacc hR
    simp only [Option.getD] at honly
    have href : refreshSessionTokens env backend [] r =
        (.ok none, [] ++ [.call (refreshCall env r)]) := by
      rw [refreshSessionTokens_eq_okPayload env backend [] r rresp rp
        (by simpa [callsOf_nil] using h1) h1ok h1p]
      rw [parseTokens_eq_none_of_malformed rp h1t]
    rw [href] at honly
    rw [honly]
    rfl
  · intro a r resp1 rresp rp ha hr h1 h1s h2 h2ok h2p h2t
    have hA : truthy (some a) = true := by simp [truthy, strTruthy, ha]
    have hR : truthy (some r) = true := by simp [truthy, strTruthy, hr]
    have hboth := proxy_bothTokens env backend ⟨some a, some r⟩ path init hA hR
    simp only [Option.getD] at hboth
    have href : refreshSessionTokens env backend
        ([] ++ [.call (targetCall env path init a)]) r =
        (.ok none, [] ++ [.call (targetCall env path init a)]
          ++ [.call (refreshCall env r)]) := by
      rw [refreshSessionTokens_eq_okPayload env backend _ r rresp rp
        (by simpa [callsOf_append, callsOf_cons_call, callsOf_nil] using h2)
        h2ok h2p]
      rw [parseTokens_eq_none_of_malformed rp h2t]
    have hcore := proxyCore_eq_retry_refreshFailed env backend path init
      ⟨a, r⟩ none [] _ resp1
      (by simpa [callsOf_nil] using h1) h1s (by simp [strTruthy, hr]) href
    rw [hboth, hcore]
    rfl

/-- Witness for the C10 theorem: a scripted backend whose refresh endpoint
answers 200 with a non-object payload (proactive case) and one answering
200 with a payload missing the refresh token (reactive case); each run
ends in the cleared-cookie 401 with the expected call trace. -/
theorem c10_malformed_refresh_witness :
    proxyAuthedAdminRequest envDev (scriptedBackend c10ProactiveScript)
      ⟨none, some "R1"⟩ "/admin/admins" defaultInit =
      respondUnauthorized envDev [.call (refreshCall envDev "R1")] ∧
    proxyAuthedAdminRequest envDev (scriptedBackend c10ReactiveScript)
      ⟨some "A1", some "R1"⟩ "/admin/admins" defaultInit =
      respondUnauthorized envDev
        [.call (targetCall envDev "/admin/admins" defaultInit "A1"),
         .call (refreshCall envDev "R1")] ∧
    resultCookieWrites (respondUnauthorized envDev []) =
      some (clearedCookiePair envDev) := by
  refine ⟨?_, ?_, ?_⟩
  · exact (c10_malformed_refresh envDev (scriptedBackend c10ProactiveScript)
      "/admin/admins" defaultInit).1 none "R1" malformedRefreshResp (.str "nope")
      rfl (by decide) rfl rfl rfl (by exact True.intro)
  · exact (c10_malformed_refresh envDev (scriptedBackend c10ReactiveScript)
      "/admin/admins" defaultInit).2.1 "A1" "R1" resp401
      ⟨200, some "application/json", "", some (.obj [("accessToken", .str "A2")])⟩
      (.obj [("accessToken", .str "A2")])
      (by decide) (by decide) rfl rfl rfl rfl rfl
      (by exact Or.inr (Or.inl rfl))
  · exact ((c10_malformed_refresh envDev (constBackend okEmptyResp)
      "/admin/admins" defaultInit).2.2 []).2

/-- Claim C7, counterexample: in a rotation-with-retry run (backend 401,
accepted refresh, 200 on retry) the rotated pair is persisted — the event
log contains two persisting cookie writes — yet no persisting cookie
write occurs before the third backend call, i.e. the pair is not written
to the store before the retried request is issued, refuting the claimed
ordering. -/
theorem c7_counterexample :
    setWriteBeforeCallNumber 3
      (proxyAuthedAdminRequest envDev (scriptedBackend c2Script)
        ⟨some "A1", some "R1"⟩ "/admin/admins" defaultInit).events = false ∧
    ((proxyAuthedAdminRequest envDev (scriptedBackend c2Script)
        ⟨some "A1", some "R1"⟩ "/admin/admins" defaultInit).events.countP
      isSetCookieWriteEvent) = 2 :=
  ⟨rfl, rfl⟩

/-- Claim C7, amended: within a proxied call that rotates tokens
reactively and retries, the rotated pair is persisted to the response's
cookie jar only after the retried target-endpoint request completes: the
event log is exactly the three backend calls followed by the cookie
writes (the setting pair on a non-401 retry, the clearing pair — the
rotated tokens discarded — on a 401 retry), so no persisting write
precedes the retry. -/
theorem c7_persist_after_retry (env : Env) (backend : Backend) (path : String)
    (init : RequestInit) (a r a2 r2 : String)
    (resp1 rresp resp2 : BotResponse) (rp p2 : Json)
    (ha : a ≠ "") (hr : r ≠ "")
    (h1 : backend [] (targetCall env path init a) = some resp1)
    (h1s : resp1.status = 401)
    (h2 : backend [targetCall env path init a] (refreshCall env r) = some rresp)
    (h2ok : respOk rresp = true)
    (h2p : readBotApiPayload rresp = .ok rp)
    (h2t : parseTokens rp = some ⟨a2, r2⟩)
    (h3 : backend [targetCall env path init a, refreshCall env r]
      (targetCall env path init a2) = some resp2)
    (h3p : readBotApiPayload resp2 = .ok p2) :
    (proxyAuthedAdminRequest env backend ⟨some a, some r⟩ path init).events =
      [.call (targetCall env path init a), .call (refreshCall env r),
       .call (targetCall env path init a2)] ++
      (if resp2.status = 401
       then (clearedCookiePair env).map ProxyEvent.cookieWrite
       else (setCookiePair env ⟨a2, r2⟩).map ProxyEvent.cookieWrite) ∧
    setWriteBeforeCallNumber 3
      (proxyAuthedAdminRequest env backend ⟨some a, some r⟩ path init).events =
        false := by
  have hA : truthy (some a) = true := by simp [truthy, strTruthy, ha]
  have hR : truthy (some r) = true := by simp [truthy, strTruthy, hr]
  have hboth := proxy_bothTokens env backend ⟨some a, some r⟩ path init hA hR
  simp only [Option.getD] at hboth
  have href : refreshSessionTokens env backend
      ([] ++ [.call (targetCall env path init a)]) r =
      (.ok (some ⟨a2, r2⟩), [] ++ [.call (targetCall env path init a)]
        ++ [.call (refreshCall env r)]) := by
    rw [refreshSessionTokens_eq_okPayload env backend _ r rresp rp
      (by simpa [callsOf_append, callsOf_cons_call, callsOf_nil] using h2) h2ok h2p]
    rw [h2t]
  have hcore := proxyCore_eq_retry_refreshOk env backend path init ⟨a, r⟩ none
    [] _ resp1 ⟨a2, r2⟩ resp2
    (by simpa [callsOf_nil] using h1) h1s (by simp [strTruthy, hr]) href
    (by simpa [callsOf_append, callsOf_cons_call, callsOf_nil] using h3)
  have hrun : proxyAuthedAdminRequest env backend ⟨some a, some r⟩ path init =
      finishProxy env resp2 (some ⟨a2, r2⟩)
        ([] ++ [.call (targetCall env path init a)] ++ [.call (refreshCall env r)]
          ++ [.call (targetCall env path init a2)]) := by
    rw [hboth, hcore]
  have hev : (proxyAuthedAdminRequest env backend ⟨some a, some r⟩ path init).events =
      [.call (targetCall env path init a), .call (refreshCall env r),
       .call (targetCall env path init a2)] ++
      (if resp2.status = 401
       then (clearedCookiePair env).map ProxyEvent.cookieWrite
       else (setCookiePair env ⟨a2, r2⟩).map ProxyEvent.cookieWrite) := by
    rw [hrun]
    by_cases hst : resp2.status = 401
    · rw [finishProxy_eq_clear env resp2 _ _ p2 h3p hst]
      simp [hst]
    · rw [finishProxy_eq_set env resp2 _ _ p2 h3p hst]
      simp [hst]
  refine ⟨hev, ?_⟩
  rw [hev]
  simp [setWriteBeforeCallNumber]

/-- Witness for the amended C7 theorem: the scripted rotation-with-retry
run, whose event log is the three backend calls followed by the two
persisting cookie writes for `A2`/`R2`. -/
theorem c7_persist_after_retry_witness :
    (proxyAuthedAdminRequest envDev (scriptedBackend c2Script)
      ⟨some "A1", some "R1"⟩ "/admin/admins" defaultInit).events =
      [.call (targetCall envDev "/admin/admins" defaultInit "A1"),
       .call (refreshCall envDev "R1"),
       .call (targetCall envDev "/admin/admins" defaultInit "A2")] ++
      (setCookiePair envDev ⟨"A2", "R2"⟩).map ProxyEvent.cookieWrite := by
  have h := c7_persist_after_retry envDev (scriptedBackend c2Script)
    "/admin/admins" defaultInit "A1" "R1" "A2" "R2"
    resp401 refreshOkResp okEmptyResp
    (.obj [("accessToken", .str "A2"), ("refreshToken", .str "R2")]) (.obj [])
    (by decide) (by decide) rfl rfl rfl rfl rfl rfl rfl rfl
  rw [h.1]
  rfl

end PresentationAdmin
